import Mathlib

/-!
# Verification of the control-rs command-serialization core

Shallow embedding of the Extron AV-switcher control daemon
(`src/extron.rs`, `src/server.rs`).  The serial hardware is external to the
program, so every hardware interaction is modelled by an explicit
environment value recording what the hardware would answer: a candidate
serial port carries the outcome of opening it and of the subsequent
clear/write/read operations, and a select transaction carries the outcome
of opening, writing, and the sequence of line reads.  The Rust `io::Error`
values, which the code distinguishes only by their message strings, are
modelled by a small error type whose constructors correspond to the
distinct messages constructed in the source.
-/

deriving instance DecidableEq for Except

/-- The distinct `std::io::Error` values the program constructs or receives.
`invalidInput` stands for `Error::new(Other, "Invalid input {input}")`,
`unexpectedAnswer` for `Error::new(Other, "Unexpected answer {l}")`,
`deviceNotFound` for `Error::new(Other, "Device not found")`, `timedOut`
for a read-timeout I/O error from the serial layer, and `other` for any
other I/O error carried through unchanged. -/
inductive IOError where
  | invalidInput (input : String)
  | unexpectedAnswer (line : String)
  | deviceNotFound
  | timedOut
  | other (msg : String)
deriving DecidableEq, Repr

/-- `ExtronDevice` from `src/extron.rs`: `{ device_path, name }`. -/
structure ExtronDevice where
  device_path : String
  name : String
deriving DecidableEq, Repr

/-- `ExtronDeviceList` from `src/extron.rs`: a `HashMap<String, ExtronDevice>`,
modelled as an association list with unique keys; `insert` replaces the
binding of an existing key, `find` is exact key lookup, iteration order is
unspecified (the list order is one admissible order). -/
structure ExtronDeviceList where
  map : List (String × ExtronDevice)
deriving DecidableEq, Repr

/-- `HashMap::new` / `ExtronDeviceList::new`. -/
def ExtronDeviceList.new : ExtronDeviceList := ⟨[]⟩

/-- `HashMap::insert`: the new binding replaces any existing binding of the
same key. -/
def ExtronDeviceList.insert (m : ExtronDeviceList) (k : String)
    (v : ExtronDevice) : ExtronDeviceList :=
  ⟨(k, v) :: m.map.filter (fun p => p.1 != k)⟩

/-- `ExtronDeviceList::find`: `self.map.get(name).map(clone)` — exact-match
lookup. -/
def ExtronDeviceList.find (m : ExtronDeviceList) (name : String) :
    Option ExtronDevice :=
  m.map.lookup name

/-- `ExtronDeviceList::len`. -/
def ExtronDeviceList.len (m : ExtronDeviceList) : Nat := m.map.length

/-- `ExtronDeviceList::iter`: the devices stored in the map (values only),
in unspecified order. -/
def ExtronDeviceList.iter (m : ExtronDeviceList) : List ExtronDevice :=
  m.map.map Prod.snd

/-! ## Discovery (`ExtronDeviceList::rescan` / `enumerate_extron`) -/

/-- Rust `str::starts_with`, computed structurally on the underlying
character list so that concrete instances evaluate in the kernel. -/
def strStartsWith (s pat : String) : Bool :=
  pat.data.isPrefixOf s.data

/-- Rust `str::trim_end`: remove trailing whitespace, computed structurally
on the underlying character list. -/
def trim_end (s : String) : String :=
  ⟨(s.data.reverse.dropWhile Char.isWhitespace).reverse⟩

/-- USB metadata of a candidate port (`serialport::UsbPortInfo`): the fields
the scan inspects are `vid` and `manufacturer`. -/
structure UsbMeta where
  vid : Nat
  manufacturer : Option String
deriving DecidableEq, Repr

/-- `serialport::SerialPortType`, reduced to the two cases the scan
distinguishes. -/
inductive PortType where
  | usbPort (p : UsbMeta)
  | otherPort
deriving DecidableEq, Repr

/-- Outcomes of the three serial operations `rescan` performs on a port it
managed to open: `serial.clear(All)`, `serial.write(b"\x1bCN\x0d")`, and
`read_line` on the buffered reader.  Each is fallible and each failure is
propagated by `?` in the source. -/
structure SerialConn where
  clearResult : Except IOError Unit
  writeResult : Except IOError Unit
  readLineResult : Except IOError String
deriving DecidableEq, Repr

/-- One entry of `serialport::available_ports()` together with the hardware
behaviour this scan would observe on it: `openResult = none` models
`open_with_settings` failing (the error value is discarded by the
`Err(_) => {}` arm), `some conn` models a successful open with the given
operation outcomes. -/
structure PortCandidate where
  port_name : String
  port_type : PortType
  openResult : Option SerialConn
deriving DecidableEq, Repr

/-- The match guard of the scan loop: `UsbPort(p) if p.vid == 0x1ce2 &&
p.manufacturer.clone().unwrap_or("") == "Extron"`. -/
def PortCandidate.matchesExtron (port : PortCandidate) : Bool :=
  match port.port_type with
  | .usbPort p => p.vid == 0x1ce2 && p.manufacturer.getD "" == "Extron"
  | .otherPort => false

/-- The body of `rescan`'s `for` loop for one candidate port: non-matching
ports and ports that fail to open are skipped; after a successful open,
`clear`, `write` and `read_line` each propagate failure with `?`; on
success the line is `trim_end`ed and inserted into the map under the
trimmed name. -/
def scanPort (map : ExtronDeviceList) (port : PortCandidate) :
    Except IOError ExtronDeviceList :=
  if port.matchesExtron then
    match port.openResult with
    | some serial => do
        let _ ← serial.clearResult
        let _ ← serial.writeResult
        let device_name ← serial.readLineResult
        let name := trim_end device_name
        .ok (map.insert name ⟨port.port_name, name⟩)
    | none => .ok map
  else
    .ok map

/-- The `for port in available_ports()?` loop of `rescan`: each iteration's
failure aborts the whole loop (the `?` operators inside the loop body). -/
def scanPorts (map : ExtronDeviceList) :
    List PortCandidate → Except IOError ExtronDeviceList
  | [] => .ok map
  | port :: rest =>
    match scanPort map port with
    | .ok m => scanPorts m rest
    | .error e => .error e

/-- `ExtronDeviceList::rescan` followed by returning the resulting list, as
used by `enumerate_extron`: `self.map.clear()` first makes the result
independent of the prior contents, so the scan starts from the empty map;
`available_ports()?` may itself fail, modelled by the `Except` argument.
On success the value is the fully rebuilt registry. -/
def ExtronDeviceList.enumerate_extron
    (availablePorts : Except IOError (List PortCandidate)) :
    Except IOError ExtronDeviceList :=
  match availablePorts with
  | .ok ports => scanPorts ExtronDeviceList.new ports
  | .error e => .error e

/-! ## Input selection (`ExtronDevice::select`) -/

/-- Hardware behaviour observed by one `select` transaction: the outcome of
`open_with_settings(device_path)`, of `port.write("{input}!")`, and the
sequence of items produced by `serial_reader.lines()` (each item is a
fallible line read; the list ending models end of stream). -/
structure SelectEnv where
  openResult : Except IOError Unit
  writeResult : Except IOError Unit
  lines : List (Except IOError String)
deriving DecidableEq, Repr

/-- The framed select command `format!("{}!", input)` written to the port. -/
def select_command (input : String) : String := input ++ "!"

/-- The echo pattern `format!("In{}All", input)` a successful selection is
matched against. -/
def ok_pattern (input : String) : String := "In" ++ input ++ "All"

/-- `select`'s `for line in serial_reader.lines()` loop: a failed line read
propagates (`line?`); a line starting with `"E01"` returns the
invalid-input error; a line starting with the echo pattern is accepted but
the loop CONTINUES to the next line; any other line returns the
unexpected-answer error carrying the raw line.  When the stream ends the
function returns success. -/
def selectLoop (pat input : String) :
    List (Except IOError String) → Except IOError Unit
  | [] => .ok ()
  | line :: rest =>
    match line with
    | .error e => .error e
    | .ok l =>
      if strStartsWith l "E01" then .error (.invalidInput input)
      else if strStartsWith l pat then selectLoop pat input rest
      else .error (.unexpectedAnswer l)

/-- `ExtronDevice::select`: open the device's port (outcome `env.openResult`
— the path opened is `self.device_path`, abstracted into the environment),
write the framed command (outcome `env.writeResult`), then run the
response-classification loop over the read lines. -/
def ExtronDevice.select (_device : ExtronDevice) (input : String)
    (env : SelectEnv) : Except IOError Unit := do
  let _ ← env.openResult
  let _ ← env.writeResult
  selectLoop (ok_pattern input) input env.lines

/-! ## The server layer (`src/server.rs`) -/

/-- `ServerCmdSelect` from `src/server.rs`. -/
structure ServerCmdSelect where
  name : String
  input : String
deriving DecidableEq, Repr

/-- `ServerCmd` from `src/server.rs`: the commands carried over the request
queue to the command loop.  It has exactly these three variants. -/
inductive ServerCmd where
  | Rescan
  | ListDevices
  | Select (s : ServerCmdSelect)
deriving DecidableEq, Repr

/-- `ServerReply` from `src/server.rs`: the reply sent back on the
per-request reply channel. -/
inductive ServerReply where
  | RescanReply
  | ListDevices (devices : List ExtronDevice)
  | Select (result : Except IOError Unit)
deriving DecidableEq, Repr

/-- A `ServerRequest` as the command loop executes it: the `ServerCmd`
paired with the hardware environment its blocking worker would observe at
execution time (`Rescan` sees the ports `available_ports()` would then
enumerate, `Select` sees the serial behaviour of the selected device's
port).  The reply channel is modelled by the loop returning the replies in
order. -/
inductive LoopRequest where
  | Rescan (availablePorts : Except IOError (List PortCandidate))
  | ListDevices
  | Select (name input : String) (env : SelectEnv)
deriving DecidableEq, Repr

/-- Whether a request mutates the device registry (only `Rescan` does). -/
def LoopRequest.mutates : LoopRequest → Bool
  | .Rescan _ => true
  | .ListDevices => false
  | .Select _ _ _ => false

/-- One iteration of `cmd_loop`'s `while let` body: the registry after the
command and the reply sent on the request's reply channel.
`Rescan` runs `enumerate_extron` on a worker; on success the new list
replaces `device_list`, on failure `device_list` is set to
`ExtronDeviceList::new()` (the failure is only logged) and the reply is
`RescanReply` either way.  `ListDevices` replies with the current devices.
`Select` looks the name up; if absent it replies with the device-not-found
error, otherwise it runs `device.select` on a worker and relays its
result. -/
def cmd_step (device_list : ExtronDeviceList) :
    LoopRequest → ExtronDeviceList × ServerReply
  | .Rescan ports =>
    match ExtronDeviceList.enumerate_extron ports with
    | .ok d => (d, .RescanReply)
    | .error _ => (ExtronDeviceList.new, .RescanReply)
  | .ListDevices => (device_list, .ListDevices device_list.iter)
  | .Select name input env =>
    match device_list.find name with
    | some device => (device_list, .Select (device.select input env))
    | none => (device_list, .Select (.error .deviceNotFound))

/-- The `while let Some(request) = cmd_rx.recv().await` loop in `Ready`
state: requests are dequeued one at a time in queue order, each processed
to completion (its reply produced) before the next is dequeued. -/
def cmd_loop_go (device_list : ExtronDeviceList) :
    List LoopRequest → List ServerReply
  | [] => []
  | request :: rest =>
    (cmd_step device_list request).2 ::
      cmd_loop_go (cmd_step device_list request).1 rest

/-- The registry state after the loop has processed a list of requests. -/
def cmd_states (device_list : ExtronDeviceList) :
    List LoopRequest → ExtronDeviceList
  | [] => device_list
  | request :: rest => cmd_states (cmd_step device_list request).1 rest

/-- `cmd_loop` from `src/server.rs`: first the initial discovery
(`enumerate_extron` on a blocking worker); its failure is propagated by
`?` (`let mut device_list = devices?;`), ending the function with that
error before any request is processed; on success the loop enters `Ready`
and services the queued requests in order. -/
def cmd_loop (initialPorts : Except IOError (List PortCandidate))
    (requests : List LoopRequest) : Except IOError (List ServerReply) :=
  match ExtronDeviceList.enumerate_extron initialPorts with
  | .ok device_list => .ok (cmd_loop_go device_list requests)
  | .error e => .error e

/-! ## Hardware-transaction traces

Each command performs at most one hardware transaction, executed on a
blocking worker that the loop awaits before dequeuing the next command.
The trace records these transactions in the order the loop performs
them. -/

/-- One hardware transaction: a discovery pass over the serial ports, or a
select transaction (open the device path, write the framed command, read
the response). -/
inductive HwTransaction where
  | scan
  | selectTx (device_path : String) (command : String)
deriving DecidableEq, Repr

/-- The hardware transactions one command performs, given the registry
state it executes against. -/
def req_trace (device_list : ExtronDeviceList) :
    LoopRequest → List HwTransaction
  | .Rescan _ => [.scan]
  | .ListDevices => []
  | .Select name input _ =>
    match device_list.find name with
    | some device => [.selectTx device.device_path (select_command input)]
    | none => []

/-- The full hardware-transaction trace of the loop over a request list. -/
def cmd_loop_trace (device_list : ExtronDeviceList) :
    List LoopRequest → List HwTransaction
  | [] => []
  | request :: rest =>
    req_trace device_list request ++
      cmd_loop_trace (cmd_step device_list request).1 rest

/-! ## The RPC gateway handlers (`ControlExtronImpl`)

Each handler's interaction with the rest of the process is summarised by
the commands it submits on the request queue (`tx_channel`) and the values
it sends on the shutdown channel (`stop`). -/

/-- The externally visible effect of one RPC handler. -/
structure HandlerEffect where
  submitted : List ServerCmd
  stop_signals : List Bool
deriving DecidableEq, Repr

/-- `ControlExtronImpl::list_devices` submits `ServerCmd::ListDevices`. -/
def list_devices_effect : HandlerEffect :=
  { submitted := [.ListDevices], stop_signals := [] }

/-- `ControlExtronImpl::rescan` submits `ServerCmd::Rescan`. -/
def rescan_effect : HandlerEffect :=
  { submitted := [.Rescan], stop_signals := [] }

/-- `ControlExtronImpl::select_input` submits `ServerCmd::Select`. -/
def select_input_effect (name input : String) : HandlerEffect :=
  { submitted := [.Select ⟨name, input⟩], stop_signals := [] }

/-- `ControlExtronImpl::stop_server` submits nothing on the request queue:
it sends `true` directly on the `stop` channel (the shutdown
coordinator). -/
def stop_server_effect : HandlerEffect :=
  { submitted := [], stop_signals := [true] }

/-- The RPC result of `stop_server`: `Ok(())` when the send on the stop
channel succeeds, the stop-failed error when the channel is closed. -/
def stop_server (send_ok : Bool) : Except IOError Unit :=
  if send_ok then .ok () else .error (.other "Stop failed")

/-- Whether a matching serial port answers the whole name-query transaction
(clear, write and read all succeed). -/
def serialAnswers (c : SerialConn) : Bool :=
  match c.clearResult, c.writeResult, c.readLineResult with
  | .ok _, .ok _, .ok _ => true
  | _, _, _ => false

/-- A port the scan can get past without an error: either it is skipped
(non-matching or failing to open) or its whole name-query transaction
succeeds. -/
def portBenign (p : PortCandidate) : Bool :=
  if p.matchesExtron then
    match p.openResult with
    | none => true
    | some c => serialAnswers c
  else true

/-- Whether a discovery outcome is a success. -/
def scanSucceeded : Except IOError ExtronDeviceList → Bool
  | .ok _ => true
  | .error _ => false

/-! ## Concrete fixtures used by witnesses and counterexamples -/

/-- An Extron USB port at `/dev/ttyA` answering the name query `"A\r\n"`. -/
def portA : PortCandidate :=
  ⟨"/dev/ttyA", .usbPort ⟨0x1ce2, some "Extron"⟩,
    some ⟨.ok (), .ok (), .ok "A\r\n"⟩⟩

/-- An Extron USB port at `/dev/ttyB` answering the name query `"B\r\n"`. -/
def portB : PortCandidate :=
  ⟨"/dev/ttyB", .usbPort ⟨0x1ce2, some "Extron"⟩,
    some ⟨.ok (), .ok (), .ok "B\r\n"⟩⟩

/-- An Extron USB port at `/dev/ttyB` answering with the same name `"A"` as
`portA`. -/
def portDup : PortCandidate :=
  ⟨"/dev/ttyB", .usbPort ⟨0x1ce2, some "Extron"⟩,
    some ⟨.ok (), .ok (), .ok "A\r\n"⟩⟩

/-- An Extron USB port that fails to open. -/
def portUnopen : PortCandidate :=
  ⟨"/dev/ttyC", .usbPort ⟨0x1ce2, some "Extron"⟩, none⟩

/-- An Extron USB port that opens but whose name-query read times out. -/
def portHung : PortCandidate :=
  ⟨"/dev/ttyD", .usbPort ⟨0x1ce2, some "Extron"⟩,
    some ⟨.ok (), .ok (), .error .timedOut⟩⟩

/-- The device discovered on `portA`. -/
def deviceA : ExtronDevice := ⟨"/dev/ttyA", "A"⟩

/-- A registry holding exactly `deviceA`. -/
def registryA : ExtronDeviceList := ⟨[("A", deviceA)]⟩

/-- A select environment whose device echoes `In2All` on the first line. -/
def envIn2 : SelectEnv := ⟨.ok (), .ok (), [.ok "In2All"]⟩

/-! ## Helper lemmas -/

theorem cmd_loop_go_append (d : ExtronDeviceList) (rs ts : List LoopRequest) :
    cmd_loop_go d (rs ++ ts)
      = cmd_loop_go d rs ++ cmd_loop_go (cmd_states d rs) ts := by
  induction rs generalizing d with
  | nil => rfl
  | cons r rs ih => simp [cmd_loop_go, cmd_states, ih]

theorem cmd_loop_trace_append (d : ExtronDeviceList) (rs ts : List LoopRequest) :
    cmd_loop_trace d (rs ++ ts)
      = cmd_loop_trace d rs ++ cmd_loop_trace (cmd_states d rs) ts := by
  induction rs generalizing d with
  | nil => rfl
  | cons r rs ih => simp [cmd_loop_trace, cmd_states, ih]

theorem cmd_loop_go_length (d : ExtronDeviceList) (rs : List LoopRequest) :
    (cmd_loop_go d rs).length = rs.length := by
  induction rs generalizing d with
  | nil => rfl
  | cons r rs ih => simp [cmd_loop_go, ih]

theorem cmd_step_fst_of_not_mutates (d : ExtronDeviceList) (r : LoopRequest)
    (h : r.mutates = false) : (cmd_step d r).1 = d := by
  cases r with
  | Rescan ports => simp [LoopRequest.mutates] at h
  | ListDevices => rfl
  | Select name input env =>
    cases hf : d.find name <;> simp [cmd_step, hf]

theorem cmd_states_of_not_mutates (d : ExtronDeviceList)
    (rs : List LoopRequest) (h : ∀ r ∈ rs, r.mutates = false) :
    cmd_states d rs = d := by
  induction rs generalizing d with
  | nil => rfl
  | cons r rs ih =>
    have h1 : (cmd_step d r).1 = d :=
      cmd_step_fst_of_not_mutates d r (h r (List.mem_cons_self r rs))
    unfold cmd_states
    rw [h1]
    exact ih d fun q hq => h q (List.mem_cons_of_mem r hq)

/-! ## Claim theorems -/

/-- C1: the command loop executes exactly one command at a time in queue
order: the replies to a queue `rs ++ ts` are the replies to `rs` followed
by the replies to `ts` started from the state `rs` left behind, the
hardware-transaction trace decomposes the same way (so every hardware
transaction of an earlier command precedes every transaction of a later
one — no overlap), and exactly one reply is produced per command. -/
theorem cmd_loop_serializes_in_order (d : ExtronDeviceList)
    (rs ts : List LoopRequest) :
    cmd_loop_go d (rs ++ ts)
        = cmd_loop_go d rs ++ cmd_loop_go (cmd_states d rs) ts
      ∧ cmd_loop_trace d (rs ++ ts)
        = cmd_loop_trace d rs ++ cmd_loop_trace (cmd_states d rs) ts
      ∧ (cmd_loop_go d rs).length = rs.length :=
  ⟨cmd_loop_go_append d rs ts, cmd_loop_trace_append d rs ts,
    cmd_loop_go_length d rs⟩

/-- C5: a `Rescan` command always replies `RescanReply` (unit success),
whatever the discovery outcome, and when discovery fails the loop's
registry is set to the fresh empty list, not left at its previous
contents. -/
theorem rescan_always_unit_reply (d : ExtronDeviceList)
    (ports : Except IOError (List PortCandidate)) :
    (cmd_step d (.Rescan ports)).2 = .RescanReply
      ∧ ∀ e, ExtronDeviceList.enumerate_extron ports = .error e →
          (cmd_step d (.Rescan ports)).1 = ExtronDeviceList.new := by
  constructor
  · cases he : ExtronDeviceList.enumerate_extron ports <;> simp [cmd_step, he]
  · intro e he
    simp [cmd_step, he]

/-- Witness for C5 at a nonempty registry and a failing discovery. -/
theorem rescan_always_unit_reply_witness :
    (cmd_step registryA (.Rescan (.error .timedOut))).2 = .RescanReply
      ∧ (cmd_step registryA (.Rescan (.error .timedOut))).1
          = ExtronDeviceList.new :=
  ⟨(rescan_always_unit_reply registryA (.error .timedOut)).1,
    (rescan_always_unit_reply registryA (.error .timedOut)).2 .timedOut rfl⟩


/-- C6: `SelectInput` with a name absent from the registry replies with the
device-not-found error; with a present name it replies exactly what the
driver's `select` returns for that device; and the lookup is exact match —
a found device is stored under precisely the requested name. -/
theorem select_exact_lookup (d : ExtronDeviceList) (name input : String)
    (env : SelectEnv) :
    (d.find name = none →
        cmd_step d (.Select name input env)
          = (d, .Select (.error .deviceNotFound)))
      ∧ (∀ device, d.find name = some device →
          cmd_step d (.Select name input env)
            = (d, .Select (device.select input env)))
      ∧ (∀ device, d.find name = some device → (name, device) ∈ d.map) := by
  refine ⟨fun hf => by simp [cmd_step, hf],
    fun device hf => by simp [cmd_step, hf],
    fun device hf => ?_⟩
  have hf' : d.map.lookup name = some device := hf
  obtain ⟨l₁, l₂, hl, -⟩ := List.lookup_eq_some_iff.1 hf'
  rw [hl]
  exact List.mem_append_right _ (List.mem_cons_self _ _)

/-- Witness for C6: a lookup miss and a lookup hit on a concrete
registry. -/
theorem select_exact_lookup_witness :
    cmd_step registryA (.Select "C" "1" envIn2)
        = (registryA, .Select (.error .deviceNotFound))
      ∧ cmd_step registryA (.Select "A" "2" envIn2)
        = (registryA, .Select (deviceA.select "2" envIn2))
      ∧ ("A", deviceA) ∈ registryA.map :=
  ⟨(select_exact_lookup registryA "C" "1" envIn2).1 (by decide),
    (select_exact_lookup registryA "A" "2" envIn2).2.1 deviceA (by decide),
    (select_exact_lookup registryA "A" "2" envIn2).2.2 deviceA (by decide)⟩

/-- A matching port whose open, clear, write and read all succeed adds the
device under the `trim_end`ed response line. -/
theorem scanPort_answered (m : ExtronDeviceList) (port : PortCandidate)
    (serial : SerialConn) (s : String)
    (hmatch : port.matchesExtron = true)
    (hopen : port.openResult = some serial)
    (hclear : serial.clearResult = .ok ())
    (hwrite : serial.writeResult = .ok ())
    (hread : serial.readLineResult = .ok s) :
    scanPort m port
      = .ok (m.insert (trim_end s) ⟨port.port_name, trim_end s⟩) := by
  simp only [scanPort, hmatch, hopen, hclear, hwrite, hread, if_true]
  rfl

/-- C9: the name recorded for a discovered device — both the registry key
and the device's `name` field — is the response line with trailing
whitespace removed. -/
theorem discovery_records_trimmed_name (m : ExtronDeviceList)
    (port : PortCandidate) (serial : SerialConn) (s : String)
    (hmatch : port.matchesExtron = true)
    (hopen : port.openResult = some serial)
    (hclear : serial.clearResult = .ok ())
    (hwrite : serial.writeResult = .ok ())
    (hread : serial.readLineResult = .ok s) :
    scanPort m port
      = .ok (m.insert (trim_end s) ⟨port.port_name, trim_end s⟩) :=
  scanPort_answered m port serial s hmatch hopen hclear hwrite hread

/-- Witness for C9: the carriage-return/line-feed echoed after `"A"` is
stripped before the device is stored. -/
theorem discovery_records_trimmed_name_witness :
    scanPort ExtronDeviceList.new portA
        = .ok (ExtronDeviceList.new.insert (trim_end "A\r\n")
            ⟨"/dev/ttyA", trim_end "A\r\n"⟩)
      ∧ trim_end "A\r\n" = "A" :=
  ⟨discovery_records_trimmed_name ExtronDeviceList.new portA
      ⟨.ok (), .ok (), .ok "A\r\n"⟩ "A\r\n" (by decide) rfl rfl rfl rfl,
    by decide⟩

/-- C8: after a successful rescan that produced the registry `r`, a later
`ListDevices` — with any number of non-mutating commands in between —
replies with exactly `r`'s devices: the complete new registry, never a
mixture of old and new. -/
theorem list_devices_after_rescan (d r : ExtronDeviceList)
    (ports : Except IOError (List PortCandidate))
    (mid rest : List LoopRequest)
    (hok : ExtronDeviceList.enumerate_extron ports = .ok r)
    (hmid : ∀ q ∈ mid, q.mutates = false) :
    cmd_loop_go d (.Rescan ports :: (mid ++ .ListDevices :: rest))
      = .RescanReply ::
          (cmd_loop_go r mid
            ++ .ListDevices r.iter :: cmd_loop_go r rest) := by
  have hstep : cmd_step d (.Rescan ports) = (r, .RescanReply) := by
    simp [cmd_step, hok]
  rw [cmd_loop_go, hstep]
  rw [cmd_loop_go_append, cmd_states_of_not_mutates r mid hmid]
  simp [cmd_loop_go, cmd_step]

/-- Witness for C8: a concrete rescan discovering `deviceA`, an interposed
select, then a `ListDevices` observing exactly the new registry. -/
theorem list_devices_after_rescan_witness :
    cmd_loop_go ExtronDeviceList.new
        (.Rescan (.ok [portA])
          :: ([.Select "A" "2" envIn2] ++ .ListDevices :: []))
      = .RescanReply ::
          (cmd_loop_go registryA [.Select "A" "2" envIn2]
            ++ .ListDevices registryA.iter :: cmd_loop_go registryA []) :=
  list_devices_after_rescan ExtronDeviceList.new registryA (.ok [portA])
    [.Select "A" "2" envIn2] [] (by decide) (by decide)

theorem except_bind_ok {α β : Type} (x : α) (f : α → Except IOError β) :
    (Except.ok x >>= f) = f x := rfl

theorem except_bind_error {α β : Type} (e : IOError)
    (f : α → Except IOError β) :
    ((Except.error e : Except IOError α) >>= f) = .error e := rfl

theorem selectLoop_ok_iff (pat input : String)
    (lines : List (Except IOError String)) :
    selectLoop pat input lines = .ok () ↔
      ∀ l ∈ lines, ∃ s, l = .ok s ∧ strStartsWith s "E01" = false
        ∧ strStartsWith s pat = true := by
  induction lines with
  | nil => simp [selectLoop]
  | cons l rest ih =>
    cases l with
    | error e => simp [selectLoop]
    | ok s =>
      by_cases h1 : strStartsWith s "E01"
      · simp [selectLoop, h1]
      · by_cases h2 : strStartsWith s pat
        · simp [selectLoop, h1, h2, ih]
        · simp [selectLoop, h1, h2]

/-- C2 counterexample: a line matching the echo pattern is NOT decisive —
with the stream `["In3All", "garbage"]` for input `"3"` the claim predicts
success at the first line, but `select` keeps reading and fails on the
second line. -/
theorem select_success_line_not_decisive_cex :
    deviceA.select "3" ⟨.ok (), .ok (), [.ok "In3All", .ok "garbage"]⟩
        = .error (.unexpectedAnswer "garbage")
      ∧ deviceA.select "3" ⟨.ok (), .ok (), [.ok "In3All", .ok "garbage"]⟩
        ≠ .ok () := by decide

/-- C2 (amended): an error-prefixed line or an unrecognized line terminates
the read immediately with `InvalidInput` / `UnexpectedResponse`, but a
line matching the echo pattern does not terminate the read: the loop
continues, and success is returned exactly when the line stream ends with
every line having matched the echo pattern.  The three single-line
examples hold as the claim states. -/
theorem select_line_classification :
    (∀ (device : ExtronDevice) (input : String)
        (lines : List (Except IOError String)),
      device.select input ⟨.ok (), .ok (), lines⟩ = .ok () ↔
        ∀ l ∈ lines, ∃ s, l = .ok s ∧ strStartsWith s "E01" = false
          ∧ strStartsWith s (ok_pattern input) = true)
      ∧ (∀ (input s : String) (rest : List (Except IOError String)),
          strStartsWith s "E01" = true →
            selectLoop (ok_pattern input) input (.ok s :: rest)
              = .error (.invalidInput input))
      ∧ (∀ (input s : String) (rest : List (Except IOError String)),
          strStartsWith s "E01" = false →
            strStartsWith s (ok_pattern input) = false →
            selectLoop (ok_pattern input) input (.ok s :: rest)
              = .error (.unexpectedAnswer s))
      ∧ deviceA.select "3" ⟨.ok (), .ok (), [.ok "E01"]⟩
          = .error (.invalidInput "3")
      ∧ deviceA.select "3" ⟨.ok (), .ok (), [.ok "In3All"]⟩ = .ok ()
      ∧ deviceA.select "3" ⟨.ok (), .ok (), [.ok "garbage"]⟩
          = .error (.unexpectedAnswer "garbage") := by
  refine ⟨fun device input lines => ?_,
    fun input s rest h1 => by simp [selectLoop, h1],
    fun input s rest h1 h2 => by simp [selectLoop, h1, h2],
    by decide, by decide, by decide⟩
  have hsel : device.select input ⟨.ok (), .ok (), lines⟩
      = selectLoop (ok_pattern input) input lines := rfl
  rw [hsel]
  exact selectLoop_ok_iff (ok_pattern input) input lines

/-- Witness for C2 (amended) at concrete decisive lines. -/
theorem select_line_classification_witness :
    selectLoop (ok_pattern "3") "3" (.ok "E01" :: [])
        = .error (.invalidInput "3")
      ∧ selectLoop (ok_pattern "3") "3" (.ok "garbage" :: [])
        = .error (.unexpectedAnswer "garbage") :=
  ⟨select_line_classification.2.1 "3" "E01" [] (by decide),
    select_line_classification.2.2.1 "3" "garbage" [] (by decide) (by decide)⟩

theorem scanPort_skipped (m : ExtronDeviceList) (p : PortCandidate)
    (h : p.matchesExtron = false ∨ p.openResult = none) :
    scanPort m p = .ok m := by
  rcases h with h | h
  · simp [scanPort, h]
  · cases hm : p.matchesExtron <;> simp [scanPort, h, hm]

theorem serialAnswers_fields (c : SerialConn) (h : serialAnswers c = true) :
    c.clearResult = .ok () ∧ c.writeResult = .ok ()
      ∧ ∃ s, c.readLineResult = .ok s := by
  unfold serialAnswers at h
  cases hc : c.clearResult with
  | error e => rw [hc] at h; exact absurd h (by simp)
  | ok u =>
    cases hw : c.writeResult with
    | error e => rw [hc, hw] at h; exact absurd h (by simp)
    | ok u' =>
      cases hr : c.readLineResult with
      | error e => rw [hc, hw, hr] at h; exact absurd h (by simp)
      | ok s => cases u; cases u'; exact ⟨rfl, rfl, s, rfl⟩

theorem scanPort_benign (m : ExtronDeviceList) (p : PortCandidate)
    (h : portBenign p = true) : ∃ m', scanPort m p = .ok m' := by
  by_cases hm : p.matchesExtron
  · cases ho : p.openResult with
    | none => exact ⟨m, scanPort_skipped m p (Or.inr ho)⟩
    | some c =>
      have hans : serialAnswers c = true := by
        unfold portBenign at h
        rw [if_pos hm, ho] at h
        exact h
      obtain ⟨hc, hw, s, hr⟩ := serialAnswers_fields c hans
      exact ⟨m.insert (trim_end s) ⟨p.port_name, trim_end s⟩,
        scanPort_answered m p c s hm ho hc hw hr⟩
  · exact ⟨m, scanPort_skipped m p
      (Or.inl (Bool.not_eq_true _ ▸ eq_false_of_ne_true hm))⟩

theorem scanPorts_skip (ps₁ : List PortCandidate) (p : PortCandidate)
    (ps₂ : List PortCandidate) (m : ExtronDeviceList)
    (h : p.matchesExtron = false ∨ p.openResult = none) :
    scanPorts m (ps₁ ++ p :: ps₂) = scanPorts m (ps₁ ++ ps₂) := by
  induction ps₁ generalizing m with
  | nil => simp [scanPorts, scanPort_skipped m p h]
  | cons q qs ih =>
    simp only [List.cons_append, scanPorts]
    cases hq : scanPort m q with
    | ok m' => simp only [hq]; exact ih m'
    | error e => simp only [hq]

theorem scanPorts_benign (ports : List PortCandidate) :
    ∀ m, (∀ p ∈ ports, portBenign p = true) →
      ∃ r, scanPorts m ports = .ok r := by
  induction ports with
  | nil => exact fun m _ => ⟨m, rfl⟩
  | cons p rest ih =>
    intro m h
    obtain ⟨m', hm'⟩ := scanPort_benign m p (h p (List.mem_cons_self p rest))
    obtain ⟨r, hr⟩ := ih m' fun q hq => h q (List.mem_cons_of_mem p hq)
    exact ⟨r, by simp only [scanPorts, hm', hr]⟩

/-- C3 counterexample: a matching endpoint that opens but fails to answer
the name query (read timeout) is not skipped — it aborts the whole scan
with the error, and the endpoint after it (which would have answered) is
never reached. -/
theorem rescan_post_open_failure_cex :
    ExtronDeviceList.enumerate_extron (.ok [portHung, portB])
        = .error .timedOut
      ∧ scanSucceeded
          (ExtronDeviceList.enumerate_extron (.ok [portHung, portB]))
          = false := by decide

/-- C3 (amended): endpoints that are non-matching or FAIL TO OPEN are
silently skipped and the scan continues with the remaining endpoints, and
a scan succeeds whenever every endpoint is either skipped that way or
answers the whole name query; a failure after a successful open, however,
aborts the entire scan (see the counterexample). -/
theorem rescan_skips_only_open_failures :
    (∀ (ps₁ : List PortCandidate) (p : PortCandidate)
        (ps₂ : List PortCandidate) (m : ExtronDeviceList),
      p.matchesExtron = false ∨ p.openResult = none →
        scanPorts m (ps₁ ++ p :: ps₂) = scanPorts m (ps₁ ++ ps₂))
      ∧ (∀ ports : List PortCandidate,
          (∀ p ∈ ports, portBenign p = true) →
          scanSucceeded (ExtronDeviceList.enumerate_extron (.ok ports))
            = true) := by
  refine ⟨scanPorts_skip, fun ports h => ?_⟩
  obtain ⟨r, hr⟩ := scanPorts_benign ports ExtronDeviceList.new h
  show scanSucceeded (scanPorts ExtronDeviceList.new ports) = true
  rw [hr]
  rfl

/-- Witness for C3 (amended): a port that fails to open is skipped between
two answering ports, and a scan over benign ports succeeds. -/
theorem rescan_skips_only_open_failures_witness :
    scanPorts ExtronDeviceList.new ([portA] ++ portUnopen :: [portB])
        = scanPorts ExtronDeviceList.new ([portA] ++ [portB])
      ∧ scanSucceeded
          (ExtronDeviceList.enumerate_extron (.ok [portA, portUnopen]))
          = true :=
  ⟨rescan_skips_only_open_failures.1 [portA] portUnopen [portB]
      ExtronDeviceList.new (Or.inr rfl),
    rescan_skips_only_open_failures.2 [portA, portUnopen] (by decide)⟩

/-- C4 counterexample: with a failing initial discovery the command loop
does not start with an empty registry — it returns the error and produces
no reply for the queued `ListDevices`. -/
theorem initial_discovery_failure_cex :
    cmd_loop (.error (.other "boom")) [.ListDevices]
        = .error (.other "boom")
      ∧ cmd_loop (.error (.other "boom")) [.ListDevices]
        ≠ .ok [.ListDevices ExtronDeviceList.new.iter] := by decide

/-- C4 (amended): if the initial discovery fails, `cmd_loop` propagates the
error (`let mut device_list = devices?;`) and terminates before processing
any command, rather than entering `Ready` with an empty registry. -/
theorem initial_discovery_failure_aborts_loop
    (ports : Except IOError (List PortCandidate)) (e : IOError)
    (requests : List LoopRequest)
    (h : ExtronDeviceList.enumerate_extron ports = .error e) :
    cmd_loop ports requests = .error e := by
  simp [cmd_loop, h]

/-- Witness for C4 (amended) at a concrete failing discovery. -/
theorem initial_discovery_failure_aborts_loop_witness :
    cmd_loop (.error .timedOut) [.ListDevices] = .error .timedOut :=
  initial_discovery_failure_aborts_loop (.error .timedOut) .timedOut
    [.ListDevices] rfl

/-- C7 counterexample: the stop-server RPC handler submits nothing on the
request queue (`ServerCmd` has no stop variant) — it signals the shutdown
channel directly — whereas e.g. the rescan handler does submit its
command on the queue. -/
theorem stop_server_bypasses_queue_cex :
    stop_server_effect.submitted = ([] : List ServerCmd)
      ∧ stop_server_effect.stop_signals = [true]
      ∧ rescan_effect.submitted = [ServerCmd.Rescan] := by decide

/-- C7 (amended): `StopServer` is not one of the `ServerCmd` variants and
is not serialized through the command queue: its handler sends `true`
directly on the shutdown coordinator channel and replies unit success
exactly when that send succeeds, while the other three handlers each
submit their one command on the queue and signal no shutdown. -/
theorem stop_server_direct_signal :
    stop_server_effect.submitted = ([] : List ServerCmd)
      ∧ stop_server_effect.stop_signals = [true]
      ∧ stop_server true = .ok ()
      ∧ stop_server false = .error (.other "Stop failed")
      ∧ list_devices_effect.submitted = [ServerCmd.ListDevices]
      ∧ list_devices_effect.stop_signals = []
      ∧ rescan_effect.submitted = [ServerCmd.Rescan]
      ∧ rescan_effect.stop_signals = []
      ∧ ∀ name input : String,
          (select_input_effect name input).submitted
              = [ServerCmd.Select ⟨name, input⟩]
            ∧ (select_input_effect name input).stop_signals = [] :=
  ⟨rfl, rfl, rfl, rfl, rfl, rfl, rfl, rfl, fun _ _ => ⟨rfl, rfl⟩⟩

theorem insert_keys_nodup (m : ExtronDeviceList) (k : String)
    (v : ExtronDevice) (h : (m.map.map Prod.fst).Nodup) :
    ((m.insert k v).map.map Prod.fst).Nodup := by
  unfold ExtronDeviceList.insert
  simp only [List.map_cons, List.nodup_cons]
  constructor
  · intro hk
    simp only [List.mem_map] at hk
    obtain ⟨p, hp, hpk⟩ := hk
    have hne := List.of_mem_filter hp
    rw [hpk] at hne
    simp at hne
  · exact ((List.filter_sublist m.map).map Prod.fst).nodup h

theorem scanPort_ok_shape (m : ExtronDeviceList) (p : PortCandidate)
    (r : ExtronDeviceList) (h : scanPort m p = .ok r) :
    r = m ∨ ∃ k v, r = m.insert k v := by
  by_cases hmt : p.matchesExtron
  · cases ho : p.openResult with
    | none =>
      left
      simp only [scanPort, hmt, ho, if_true] at h
      exact (Except.ok.inj h).symm
    | some c =>
      cases hc : c.clearResult with
      | error e =>
        simp only [scanPort, hmt, ho, if_true, hc, except_bind_error] at h
        exact Except.noConfusion h
      | ok u =>
        cases hw : c.writeResult with
        | error e =>
          simp only [scanPort, hmt, ho, if_true, hc, hw, except_bind_ok,
            except_bind_error] at h
          exact Except.noConfusion h
        | ok u' =>
          cases hr : c.readLineResult with
          | error e =>
            simp only [scanPort, hmt, ho, if_true, hc, hw, hr,
              except_bind_ok, except_bind_error] at h
            exact Except.noConfusion h
          | ok s =>
            right
            refine ⟨trim_end s, ⟨p.port_name, trim_end s⟩, ?_⟩
            cases u; cases u'
            have hans := scanPort_answered m p c s hmt ho hc hw hr
            rw [hans] at h
            exact (Except.ok.inj h).symm
  · left
    have hskip : scanPort m p = .ok m :=
      scanPort_skipped m p
        (Or.inl (Bool.not_eq_true _ ▸ eq_false_of_ne_true hmt))
    rw [hskip] at h
    exact (Except.ok.inj h).symm

theorem scanPorts_ok_nodup (ports : List PortCandidate) :
    ∀ m r, scanPorts m ports = .ok r →
      (m.map.map Prod.fst).Nodup → (r.map.map Prod.fst).Nodup := by
  induction ports with
  | nil =>
    intro m r h hm
    rw [← Except.ok.inj h]
    exact hm
  | cons p rest ih =>
    intro m r h hm
    cases hp : scanPort m p with
    | error e =>
      simp only [scanPorts, hp] at h
      exact Except.noConfusion h
    | ok m' =>
      simp only [scanPorts, hp] at h
      have hm' : (m'.map.map Prod.fst).Nodup := by
        rcases scanPort_ok_shape m p m' hp with rfl | ⟨k, v, rfl⟩
        · exact hm
        · exact insert_keys_nodup m k v hm
      exact ih m' r h hm'

/-- C10: the registry holds at most one device per name — after any
successful scan its keys are pairwise distinct — and when two endpoints of
one scan report the same trimmed name, the endpoint scanned later
silently replaces the earlier one: the resulting registry is exactly the
singleton for the later port, so `find` on that name returns the later
port's device and the snapshot no longer contains the earlier port's
path. -/
theorem registry_unique_names :
    (∀ (ports : List PortCandidate) (r : ExtronDeviceList),
      ExtronDeviceList.enumerate_extron (.ok ports) = .ok r →
        (r.map.map Prod.fst).Nodup)
      ∧ (∀ (p₁ p₂ : PortCandidate) (c₁ c₂ : SerialConn) (s₁ s₂ : String),
          p₁.matchesExtron = true → p₁.openResult = some c₁ →
          c₁.clearResult = .ok () → c₁.writeResult = .ok () →
          c₁.readLineResult = .ok s₁ →
          p₂.matchesExtron = true → p₂.openResult = some c₂ →
          c₂.clearResult = .ok () → c₂.writeResult = .ok () →
          c₂.readLineResult = .ok s₂ →
          trim_end s₁ = trim_end s₂ →
          ExtronDeviceList.enumerate_extron (.ok [p₁, p₂])
              = .ok ⟨[(trim_end s₂, ⟨p₂.port_name, trim_end s₂⟩)]⟩
            ∧ ExtronDeviceList.find
                ⟨[(trim_end s₂, ⟨p₂.port_name, trim_end s₂⟩)]⟩
                (trim_end s₂) = some ⟨p₂.port_name, trim_end s₂⟩
            ∧ ExtronDeviceList.iter
                ⟨[(trim_end s₂, ⟨p₂.port_name, trim_end s₂⟩)]⟩
                = [⟨p₂.port_name, trim_end s₂⟩]) := by
  constructor
  · intro ports r h
    exact scanPorts_ok_nodup ports ExtronDeviceList.new r h List.nodup_nil
  · intro p₁ p₂ c₁ c₂ s₁ s₂ hm₁ ho₁ hc₁ hw₁ hr₁ hm₂ ho₂ hc₂ hw₂ hr₂ hnames
    have h₁ := scanPort_answered ExtronDeviceList.new p₁ c₁ s₁
      hm₁ ho₁ hc₁ hw₁ hr₁
    have h₂ := scanPort_answered
      (ExtronDeviceList.new.insert (trim_end s₁)
        ⟨p₁.port_name, trim_end s₁⟩) p₂ c₂ s₂ hm₂ ho₂ hc₂ hw₂ hr₂
    refine ⟨?_, ?_, rfl⟩
    · show scanPorts ExtronDeviceList.new [p₁, p₂] = _
      simp only [scanPorts, h₁, h₂]
      congr 1
      unfold ExtronDeviceList.insert ExtronDeviceList.new
      simp [hnames]
    · exact List.lookup_cons_self

/-- Witness for C10: `portA` and `portDup` both answer `"A\r\n"`; the
registry after the scan is the singleton for `portDup` and its keys are
pairwise distinct. -/
theorem registry_unique_names_witness :
    ((ExtronDeviceList.mk [("A", ⟨"/dev/ttyB", "A"⟩)]).map.map
        Prod.fst).Nodup
      ∧ ExtronDeviceList.enumerate_extron (.ok [portA, portDup])
          = .ok ⟨[(trim_end "A\r\n", ⟨"/dev/ttyB", trim_end "A\r\n"⟩)]⟩ :=
  ⟨registry_unique_names.1 [portA, portDup]
      ⟨[("A", ⟨"/dev/ttyB", "A"⟩)]⟩ (by decide),
    (registry_unique_names.2 portA portDup
      ⟨.ok (), .ok (), .ok "A\r\n"⟩ ⟨.ok (), .ok (), .ok "A\r\n"⟩
      "A\r\n" "A\r\n" (by decide) rfl rfl rfl rfl
      (by decide) rfl rfl rfl rfl rfl).1⟩
